import Mathlib

/-!
Verification of the pressure-sampling and admission-control engine of
`hono-under-pressure` against a shallow Lean embedding of its source
(`packages/under-pressure/src/core.ts` and its sibling revisions).

JavaScript numbers that matter here are modelled as `JSNum`
(finite rational, positive infinity, or NaN) so that the code's
`NaN`-to-infinity clamping and strict `>` comparisons keep their
JavaScript semantics.  Machine state mutated by timers is modelled as
explicit state passed through a step function.
-/

namespace HUP

/-- A JavaScript number as used by the delay computation: a finite value
(modelled as a rational), positive infinity, or NaN. -/
inductive JSNum where
  | nan : JSNum
  | inf : JSNum
  | fin : ℚ → JSNum
deriving DecidableEq

/-- `Number.isNaN`. -/
def JSNum.isNaN : JSNum → Bool
  | .nan => true
  | _ => false

/-- The JavaScript strict `>` comparison: any comparison with NaN is
false; `+Infinity` is greater than every finite value. -/
def JSNum.gt : JSNum → JSNum → Bool
  | .nan, _ => false
  | _, .nan => false
  | .inf, .inf => false
  | .inf, .fin _ => true
  | .fin _, .inf => false
  | .fin a, .fin b => decide (b < a)

/-- Division of a JavaScript number by a positive finite constant
(used as `histogram.mean / 1e6`). -/
def JSNum.divq : JSNum → ℚ → JSNum
  | .nan, _ => .nan
  | .inf, _ => .inf
  | .fin a, c => .fin (a / c)

/-- Subtraction of a finite constant (used as `... - resolution`). -/
def JSNum.subq : JSNum → ℚ → JSNum
  | .nan, _ => .nan
  | .inf, _ => .inf
  | .fin a, b => .fin (a - b)

/-- `Math.max(0, x)`: NaN propagates, infinity stays, finite values are
clamped from below by `0`. -/
def JSNum.max0 : JSNum → JSNum
  | .nan => .nan
  | .inf => .inf
  | .fin a => .fin (max 0 a)

/-- Runtime capabilities: whether `monitorEventLoopDelay` (the interval
histogram) and `performance.eventLoopUtilization` exist. -/
structure Caps where
  hist : Bool := true
  elu : Bool := true
deriving DecidableEq

/-- The configuration surface of `underPressure`, with the defaults
taken by the destructuring in `core.ts`
(`maxEventLoopDelay = 0`, `maxHeapUsedBytes = 0`, `maxRssBytes = 0`,
`maxEventLoopUtilization = 0`, `healthCheckInterval = -1`). -/
structure Config where
  maxEventLoopDelay : ℚ := 0
  maxHeapUsedBytes : ℚ := 0
  maxRssBytes : ℚ := 0
  maxEventLoopUtilization : ℚ := 0
  healthCheckInterval : ℚ := -1
deriving DecidableEq

/-- The mutable signal snapshot kept in the closure of `underPressure`:
`heapUsed`, `rssBytes`, `eventLoopDelay`, `eventLoopUtilized`, and the
health flag `externalsHealthy` (its JavaScript truthiness).  Initial
values match the source (`0`, and `externalsHealthy = false`). -/
structure Snapshot where
  eventLoopDelay : JSNum := .fin 0
  heapUsed : ℚ := 0
  rssBytes : ℚ := 0
  eventLoopUtilized : ℚ := 0
  externalsHealthy : Bool := false
deriving DecidableEq

/-- `const checkMaxEventLoopDelay = maxEventLoopDelay > 0`. -/
def checkMaxEventLoopDelay (cfg : Config) : Bool :=
  decide (0 < cfg.maxEventLoopDelay)

/-- `const checkMaxHeapUsedBytes = maxHeapUsedBytes > 0`. -/
def checkMaxHeapUsedBytes (cfg : Config) : Bool :=
  decide (0 < cfg.maxHeapUsedBytes)

/-- `const checkMaxRssBytes = maxRssBytes > 0`. -/
def checkMaxRssBytes (cfg : Config) : Bool :=
  decide (0 < cfg.maxRssBytes)

/-- `const checkMaxEventLoopUtilization = eventLoopUtilization ?
maxEventLoopUtilization > 0 : false` : the utilization check is
force-disabled when the capability is unavailable. -/
def checkMaxEventLoopUtilization (cap : Caps) (cfg : Config) : Bool :=
  if cap.elu then decide (0 < cfg.maxEventLoopUtilization) else false

/-- The condition `checkMaxEventLoopDelay && eventLoopDelay > maxEventLoopDelay`
guarding the delay branch of `isUnderPressure` and of the gating middleware. -/
def violDelay (cfg : Config) (s : Snapshot) : Bool :=
  checkMaxEventLoopDelay cfg &&
    JSNum.gt s.eventLoopDelay (.fin cfg.maxEventLoopDelay)

/-- The condition `checkMaxHeapUsedBytes && heapUsed > maxHeapUsedBytes`. -/
def violHeap (cfg : Config) (s : Snapshot) : Bool :=
  checkMaxHeapUsedBytes cfg && decide (cfg.maxHeapUsedBytes < s.heapUsed)

/-- The condition `checkMaxRssBytes && rssBytes > maxRssBytes`. -/
def violRss (cfg : Config) (s : Snapshot) : Bool :=
  checkMaxRssBytes cfg && decide (cfg.maxRssBytes < s.rssBytes)

/-- The condition `checkMaxEventLoopUtilization && eventLoopUtilized >
maxEventLoopUtilization`. -/
def violUtil (cap : Caps) (cfg : Config) (s : Snapshot) : Bool :=
  checkMaxEventLoopUtilization cap cfg &&
    decide (cfg.maxEventLoopUtilization < s.eventLoopUtilized)

/-- `isUnderPressure` from `core.ts`: the if-chain over the five checks,
in source order (delay, heap, rss, external health, utilization). -/
def isUnderPressure (cfg : Config) (cap : Caps) (s : Snapshot) : Bool :=
  if violDelay cfg s then true
  else if violHeap cfg s then true
  else if violRss cfg s then true
  else if !s.externalsHealthy then true
  else if violUtil cap cfg s then true
  else false

/-- `updateEventLoopUtilization` from `core.ts`: when the capability is
absent, the published utilization is pinned to `0`; otherwise it is the
measured value. -/
def updateEventLoopUtilization (cap : Caps) (measured : ℚ) : ℚ :=
  if cap.elu then measured else 0

/-- `const resolution = 10` (milliseconds), the histogram resolution. -/
def resolution : ℚ := 10

/-- `updateEventLoopDelay` from `core.ts`, histogram branch:
`eventLoopDelay = Math.max(0, histogram.mean / 1e6 - resolution)`, and
when that is NaN it is replaced by `Number.POSITIVE_INFINITY`. -/
def updateEventLoopDelay (mean : JSNum) : JSNum :=
  let d := JSNum.max0 ((mean.divq 1000000).subq resolution)
  if d.isNaN then .inf else d

/-- `getSampleInterval` from `core.ts`.  `value || defaultValue` means a
configured `0` (falsy) also falls back to the default; the default is
`1000` with histogram support and `5` without; with histogram support
the result is clamped from below by the resolution. -/
def getSampleInterval (value : Option ℚ) (eventLoopResolution : ℚ)
    (histAvailable : Bool) : ℚ :=
  let defaultValue : ℚ := if histAvailable then 1000 else 5
  let sampleInterval : ℚ :=
    match value with
    | none => defaultValue
    | some v => if v = 0 then defaultValue else v
  if histAvailable then max eventLoopResolution sampleInterval
  else sampleInterval

/-- The five pressure kinds of `PressureType` in `types.ts`. -/
inductive PressureType where
  | eventLoopDelay
  | heapUsedBytes
  | rssBytes
  | healthCheck
  | eventLoopUtilization
deriving DecidableEq

/-- `onRequest` from the `factoryWithUnderPressure` revision: the
if-chain with an early `return` after the first violated signal, so at
most one pressure verdict is produced per request. -/
def onRequestVerdict (cfg : Config) (cap : Caps) (s : Snapshot) :
    Option PressureType :=
  if violDelay cfg s then some .eventLoopDelay
  else if violHeap cfg s then some .heapUsedBytes
  else if violRss cfg s then some .rssBytes
  else if !s.externalsHealthy then some .healthCheck
  else if violUtil cap cfg s then some .eventLoopUtilization
  else none

/-- One guarded `await pressureHandler(...)` statement of the gating
middleware in `core.ts`.  The accumulator carries the invocations so far
and whether a handler throw already aborted the middleware body. -/
def gateStep (handlerThrows : PressureType → Bool)
    (acc : List PressureType × Bool) (cond : Bool) (t : PressureType) :
    List PressureType × Bool :=
  if acc.2 then acc
  else if cond then (acc.1 ++ [t], handlerThrows t)
  else acc

/-- The gating middleware of `core.ts` (`underPressure`, second
middleware): the five guarded handler invocations run in sequence with
no early return; a throwing handler aborts the rest.  Returns the list
of pressure kinds passed to the handler and whether the middleware was
aborted by a throw. -/
def coreGateInvocations (cfg : Config) (cap : Caps) (s : Snapshot)
    (handlerThrows : PressureType → Bool) : List PressureType × Bool :=
  gateStep handlerThrows
    (gateStep handlerThrows
      (gateStep handlerThrows
        (gateStep handlerThrows
          (gateStep handlerThrows ([], false) (violDelay cfg s)
            .eventLoopDelay)
          (violHeap cfg s) .heapUsedBytes)
        (violRss cfg s) .rssBytes)
      (!s.externalsHealthy) .healthCheck)
    (violUtil cap cfg s) .eventLoopUtilization

/-- Outcome of one probe invocation: the promise resolves (to a value of
the given JavaScript truthiness) or rejects. -/
inductive ProbeOutcome where
  | resolved : Bool → ProbeOutcome
  | rejected : ProbeOutcome
deriving DecidableEq

/-- `doCheck` from `core.ts`: `externalsHealthy = await healthCheck()`,
and the `catch` branch stores `false` (after logging) instead of letting
the rejection escape the health-check loop. -/
def doCheckResult : ProbeOutcome → Bool
  | .resolved v => v
  | .rejected => false

/-- State of the external health monitor: number of probe invocations
currently in flight, whether `externalHealthCheckTimer` is armed
(pending), the truthiness of `externalsHealthy`, and how many probe
invocations have settled so far. -/
structure MonitorState where
  inFlight : ℕ
  timerArmed : Bool
  externalsHealthy : Bool
  settledCount : ℕ
deriving DecidableEq

/-- Setup state of the monitor.  With a probe configured, `core.ts`
initialises `externalsHealthy = false` and immediately launches
`doCheck()` (one invocation in flight, no timer yet — the timer is
created only in the `.then` continuation of this first call).  Without a
probe, `externalsHealthy = true` and nothing ever runs. -/
def monInit (probeConfigured : Bool) : MonitorState :=
  if probeConfigured then ⟨1, false, false, 0⟩ else ⟨0, false, true, 0⟩

/-- Scheduler events of the monitor: the armed timer fires (running
`beginCheck`, which starts a probe invocation), or an in-flight probe
invocation settles with an outcome. -/
inductive MonEvent where
  | fire : MonEvent
  | settle : ProbeOutcome → MonEvent
deriving DecidableEq

/-- One scheduler step of the health monitor, as wired in `core.ts`:

  * `fire` happens only while the one-shot timer is armed; it disarms
    the timer and starts a probe invocation (`beginCheck` calls
    `doCheck()`).
  * `settle` of an in-flight invocation stores `doCheckResult` into
    `externalsHealthy`; the first settle is the `.then` continuation of
    the initial `doCheck()`, which creates the timer only when
    `healthCheckInterval > 0`; every later settle happens inside
    `beginCheck`, whose continuation calls
    `externalHealthCheckTimer.refresh()` — the timer is re-armed only
    here, never on a fixed period.

An event that is not enabled leaves the state unchanged. -/
def monStep (interval : ℚ) (s : MonitorState) (e : MonEvent) :
    MonitorState :=
  match e with
  | .fire =>
      if s.timerArmed then
        { s with timerArmed := false, inFlight := s.inFlight + 1 }
      else s
  | .settle o =>
      if 0 < s.inFlight then
        { inFlight := s.inFlight - 1,
          timerArmed :=
            if s.settledCount = 0 then decide (0 < interval) else true,
          externalsHealthy := doCheckResult o,
          settledCount := s.settledCount + 1 }
      else s

/-- The monitor state after a sequence of scheduler events, starting
from setup. -/
def monRun (interval : ℚ) (probeConfigured : Bool)
    (es : List MonEvent) : MonitorState :=
  es.foldl (monStep interval) (monInit probeConfigured)

/-- Whether every settle outcome in an event trace is a rejection
(a probe that always rejects). -/
def allRejected : List MonEvent → Bool
  | [] => true
  | .fire :: es => allRejected es
  | .settle (.resolved _) :: _ => false
  | .settle .rejected :: es => allRejected es

/-- `const SERVICE_UNAVAILABLE = 503`. -/
def SERVICE_UNAVAILABLE : ℕ := 503

/-- Behaviour of one call of a configured pressure handler, from the
framework's point of view: it throws synchronously, returns
null/undefined, returns a non-null non-promise value, or returns a
promise that resolves or rejects. -/
inductive HandlerBehavior (β ε : Type) where
  | throws : ε → HandlerBehavior β ε
  | retNull : HandlerBehavior β ε
  | retValue : β → HandlerBehavior β ε
  | promiseResolved : HandlerBehavior β ε
  | promiseRejected : ε → HandlerBehavior β ε

/-- What `handlePressure` does with the request: continue the pipeline
(`next()`), answer with the returned body (`c.body(result)`), propagate
an error to the framework (`next(err)` or an uncaught throw), or — with
no handler configured — set the given status and `Retry-After` header
and fail with the configured error. -/
inductive GateOutcome (β ε : Type) where
  | proceed : GateOutcome β ε
  | respondBody : β → GateOutcome β ε
  | errorPropagated : ε → GateOutcome β ε
  | failDefault : ℕ → ℚ → ε → GateOutcome β ε

/-- `handlePressure` from the `factoryWithUnderPressure` revision.  With
a configured handler: a returned promise continues the pipeline on
resolution (`result.then(() => next(), next)`) and propagates the error
on rejection; a `null`/`undefined` return continues the pipeline; any
other returned value becomes the response body; a synchronous throw
escapes to the framework.  Without a handler: status 503, header
`Retry-After: retryAfter`, and `next(underPressureError)`. -/
def handlePressure {β ε : Type} (ph : Option (HandlerBehavior β ε))
    (retryAfter : ℚ) (upErr : ε) : GateOutcome β ε :=
  match ph with
  | some (.throws e) => .errorPropagated e
  | some .retNull => .proceed
  | some (.retValue b) => .respondBody b
  | some .promiseResolved => .proceed
  | some (.promiseRejected e) => .errorPropagated e
  | none => .failDefault SERVICE_UNAVAILABLE retryAfter upErr

/-- `retryAfter = 10` destructuring default: the effective Retry-After
seconds is the configured value, or `10` when absent. -/
def effectiveRetryAfter (configured : Option ℚ) : ℚ :=
  configured.getD 10

/-- The configured `healthCheck` value as seen by the setup assertions:
absent (falsy), a callable function, or a truthy non-function value. -/
inductive HealthCheckConfig where
  | absent
  | callableFn
  | nonCallable
deriving DecidableEq

/-- `mapExposeStatusRoute`: a truthy string is used as the path, `true`
maps to the default path `/status`, anything falsy (including the empty
string) disables the route. -/
def mapExposeStatusRoute : Option (Bool ⊕ String) → Option String
  | none => none
  | some (Sum.inl b) => if b then some "/status" else none
  | some (Sum.inr s) => if s.isEmpty then none else some s

/-- The two setup `assert` calls of `factoryWithUnderPressure`, run at
construction time when a truthy `healthCheck` is configured: first that
it is a function, then that `healthCheckInterval > 0` or a status route
is exposed. -/
def setupValidation (hc : HealthCheckConfig) (healthCheckInterval : ℚ)
    (statusRoute : Option String) : Except String Unit :=
  match hc with
  | .absent => .ok ()
  | .nonCallable =>
      .error "config.healthCheck should be a function that returns a promise that resolves to true or false"
  | .callableFn =>
      if 0 < healthCheckInterval ∨ statusRoute.isSome then .ok ()
      else
        .error "config.healthCheck requires config.healthCheckInterval or config.exposeStatusRoute"

/-- Result of an on-demand probe call made by the status route: either
the promise rejected, or it resolved to a value of the given truthiness
carrying the given extra JSON fields (a resolved boolean carries no
fields, since `Object.assign` of a boolean adds nothing). -/
structure CheckResultV where
  truthy : Bool
  fields : List (String × String)
deriving DecidableEq

/-- Response of the status route: a 200 JSON body, or a 503-class
failure carrying the status code, the `Retry-After` seconds and the
configured under-pressure error. -/
inductive StatusResponse (ε : Type) where
  | okJson : List (String × String) → StatusResponse ε
  | unavailable : ℕ → ℚ → ε → StatusResponse ε

/-- The status-route handler of `factoryWithUnderPressure`
(`app.get(statusRoute, ...)`): with no probe configured it answers
`{"status":"ok"}`; otherwise it invokes the probe on demand — the cached
periodic `externalsHealthy` (passed here as `cachedExternalsHealthy`) is
never read — and answers `{"status":"ok", ...checkResult}` on a truthy
result, or sets status 503 with `Retry-After` and throws the configured
error on a falsy result or a rejection. -/
def statusRouteHandler {ε : Type} (_cachedExternalsHealthy : Bool)
    (probe : Option (Except Unit CheckResultV)) (retryAfter : ℚ)
    (upErr : ε) : StatusResponse ε :=
  match probe with
  | none => .okJson [("status", "ok")]
  | some (.error _) => .unavailable SERVICE_UNAVAILABLE retryAfter upErr
  | some (.ok r) =>
      if r.truthy then .okJson (("status", "ok") :: r.fields)
      else .unavailable SERVICE_UNAVAILABLE retryAfter upErr

/-- Configuration used by concrete evaluations below: delay and heap
ceilings of 1, everything else default. -/
def cfgC3 : Config := { maxEventLoopDelay := 1, maxHeapUsedBytes := 1 }

/-- Capabilities of a full Node runtime: histogram and utilization both
available. -/
def capC3 : Caps := ⟨true, true⟩

/-- A snapshot violating both the delay and the heap ceiling of
`cfgC3`, with a healthy external state. -/
def snapC3 : Snapshot :=
  { eventLoopDelay := .fin 2, heapUsed := 2, externalsHealthy := true }

/-- Configuration with only a delay ceiling of 5. -/
def cfgW1 : Config := { maxEventLoopDelay := 5 }

/-- Snapshot whose delay equals the ceiling of `cfgW1` exactly and
whose heap usage is huge, with a healthy external state. -/
def snapW1 : Snapshot :=
  { eventLoopDelay := .fin 5, heapUsed := 10 ^ 12,
    externalsHealthy := true }

lemma monStep_flight_inv (interval : ℚ) (s : MonitorState) (e : MonEvent)
    (h : s.inFlight + s.timerArmed.toNat ≤ 1) :
    (monStep interval s e).inFlight +
      (monStep interval s e).timerArmed.toNat ≤ 1 := by
  cases e with
  | fire =>
      cases ht : s.timerArmed
      · simpa [monStep, ht] using h
      · rw [ht] at h
        simp only [Bool.toNat_true] at h
        simp [monStep, ht]
        omega
  | settle o =>
      by_cases hf : 0 < s.inFlight
      · have h1 : s.inFlight ≤ 1 := le_trans (Nat.le_add_right _ _) h
        cases hb : (if s.settledCount = 0 then decide (0 < interval) else true) <;>
          simp [monStep, hf, hb] <;> omega
      · simpa [monStep, hf] using h

lemma monRun_flight_inv_aux (interval : ℚ) :
    ∀ (es : List MonEvent) (s : MonitorState),
      s.inFlight + s.timerArmed.toNat ≤ 1 →
      (es.foldl (monStep interval) s).inFlight +
        (es.foldl (monStep interval) s).timerArmed.toNat ≤ 1 := by
  intro es
  induction es with
  | nil => intro s h; simpa using h
  | cons e es ih =>
      intro s h
      rw [List.foldl_cons]
      exact ih _ (monStep_flight_inv interval s e h)

lemma unhealthy_forces_pressure (cfg : Config) (cap : Caps) (s : Snapshot)
    (h : s.externalsHealthy = false) :
    isUnderPressure cfg cap s = true ∧
      (onRequestVerdict cfg cap s).isSome = true := by
  constructor
  · unfold isUnderPressure
    split_ifs <;> simp_all
  · unfold onRequestVerdict
    split_ifs <;> simp_all

lemma monStep_unhealthy_until (interval : ℚ) (s : MonitorState)
    (e : MonEvent) (h : s.settledCount = 0 → s.externalsHealthy = false) :
    (monStep interval s e).settledCount = 0 →
      (monStep interval s e).externalsHealthy = false := by
  cases e with
  | fire =>
      cases ht : s.timerArmed
      · simpa [monStep, ht] using h
      · simpa [monStep, ht] using h
  | settle o =>
      by_cases hf : 0 < s.inFlight
      · intro hc
        simp [monStep, hf] at hc
      · simpa [monStep, hf] using h

lemma monRun_unhealthy_aux (interval : ℚ) :
    ∀ (es : List MonEvent) (s : MonitorState),
      (s.settledCount = 0 → s.externalsHealthy = false) →
      ((es.foldl (monStep interval) s).settledCount = 0 →
        (es.foldl (monStep interval) s).externalsHealthy = false) := by
  intro es
  induction es with
  | nil => intro s h; simpa using h
  | cons e es ih =>
      intro s h
      rw [List.foldl_cons]
      exact ih _ (monStep_unhealthy_until interval s e h)

lemma monStep_no_probe (interval : ℚ) (e : MonEvent) :
    monStep interval (monInit false) e = monInit false := by
  cases e <;> rfl

lemma monRun_no_probe (interval : ℚ) (es : List MonEvent) :
    monRun interval false es = monInit false := by
  unfold monRun
  induction es with
  | nil => rfl
  | cons e es ih =>
      rw [List.foldl_cons, monStep_no_probe]
      exact ih

lemma monRun_all_rejected_aux (interval : ℚ) :
    ∀ (es : List MonEvent) (s : MonitorState),
      allRejected es = true → s.externalsHealthy = false →
      (es.foldl (monStep interval) s).externalsHealthy = false := by
  intro es
  induction es with
  | nil => intro s _ h; simpa using h
  | cons e es ih =>
      intro s hall h
      cases e with
      | fire =>
          rw [List.foldl_cons]
          refine ih _ (by simpa [allRejected] using hall) ?_
          cases ht : s.timerArmed
          · simpa [monStep, ht] using h
          · simpa [monStep, ht] using h
      | settle o =>
          cases o with
          | resolved v => simp [allRejected] at hall
          | rejected =>
              rw [List.foldl_cons]
              refine ih _ (by simpa [allRejected] using hall) ?_
              by_cases hf : 0 < s.inFlight
              · simp [monStep, hf, doCheckResult]
              · simpa [monStep, hf] using h

/-- Claim C2: with a probe configured, the health monitor never has two
probe invocations in flight: along every scheduler trace, the number of
outstanding probe calls is at most one; moreover the one-shot timer is
re-armed only in the completion continuation of the in-flight call, so
an armed timer and an outstanding call never coexist (the sum of the
two is at most one). -/
theorem health_monitor_single_flight (interval : ℚ) (es : List MonEvent) :
    (monRun interval true es).inFlight ≤ 1 ∧
    (monRun interval true es).inFlight +
      (monRun interval true es).timerArmed.toNat ≤ 1 := by
  have h := monRun_flight_inv_aux interval es (monInit true) (by decide)
  exact ⟨le_trans (Nat.le_add_right _ _) h, h⟩

/-- Claim C4: with a probe configured, `externalsHealthy` is `false`
from setup until the first probe invocation settles, so requests gated
in that window are shed (`isUnderPressure` is true and the request-gate
verdict is some pressure kind, not a pass-through); with no probe
configured, `externalsHealthy` is `true` in every reachable state. -/
theorem unhealthy_until_first_probe (interval : ℚ) (es : List MonEvent) :
    ((monRun interval true es).settledCount = 0 →
      (monRun interval true es).externalsHealthy = false) ∧
    (monRun interval false es).externalsHealthy = true ∧
    (∀ (cfg : Config) (cap : Caps) (s : Snapshot),
      s.externalsHealthy = false →
        isUnderPressure cfg cap s = true ∧
          (onRequestVerdict cfg cap s).isSome = true) := by
  refine ⟨?_, ?_, ?_⟩
  · exact monRun_unhealthy_aux interval es (monInit true) (fun _ => rfl)
  · rw [monRun_no_probe]; rfl
  · exact fun cfg cap s h => unhealthy_forces_pressure cfg cap s h

/-- Witness for C4: after setup with a probe configured and one timer
fire (no settle yet), the cached health state is still `false`, and a
default snapshot (unhealthy) is flagged as under pressure. -/
theorem unhealthy_until_first_probe_witness :
    (monRun 1 true [MonEvent.fire]).externalsHealthy = false ∧
    isUnderPressure {} ⟨true, true⟩ {} = true := by
  constructor
  · exact (unhealthy_until_first_probe 1 [MonEvent.fire]).1 (by decide)
  · exact ((unhealthy_until_first_probe 1 []).2.2 {} ⟨true, true⟩ {} rfl).1

/-- Claim C7: every probe rejection is caught by `doCheck` and stored as
`externalsHealthy = false`; under a probe that always rejects the
monitor is permanently unhealthy along every trace, every gated request
is shed, and a settling (rejected) call still re-arms the timer, so the
health-check loop keeps running instead of crashing. -/
theorem rejecting_probe_permanent_unhealthy (interval : ℚ)
    (es : List MonEvent) (hall : allRejected es = true) :
    (monRun interval true es).externalsHealthy = false ∧
    (∀ (cfg : Config) (cap : Caps) (s : Snapshot),
      s.externalsHealthy = (monRun interval true es).externalsHealthy →
        isUnderPressure cfg cap s = true ∧
          (onRequestVerdict cfg cap s).isSome = true) ∧
    doCheckResult .rejected = false ∧
    (∀ s : MonitorState, 0 < s.inFlight → 0 < interval →
      (monStep interval s (.settle .rejected)).timerArmed = true) := by
  have h1 : (monRun interval true es).externalsHealthy = false :=
    monRun_all_rejected_aux interval es (monInit true) hall rfl
  refine ⟨h1, ?_, rfl, ?_⟩
  · intro cfg cap s hs
    exact unhealthy_forces_pressure cfg cap s (hs.trans h1)
  · intro s hf hi
    simp [monStep, hf]
    exact Or.inr hi

/-- Witness for C7: one rejected settle leaves the monitor unhealthy and
a snapshot carrying that state is flagged as under pressure. -/
theorem rejecting_probe_permanent_unhealthy_witness :
    (monRun 1 true [MonEvent.settle ProbeOutcome.rejected]).externalsHealthy
        = false ∧
    isUnderPressure {} ⟨true, true⟩
      { externalsHealthy :=
          (monRun 1 true
            [MonEvent.settle ProbeOutcome.rejected]).externalsHealthy }
        = true := by
  have h := rejecting_probe_permanent_unhealthy 1
    [MonEvent.settle ProbeOutcome.rejected] (by decide)
  exact ⟨h.1, (h.2.1 {} ⟨true, true⟩ _ rfl).1⟩

lemma violDelay_iff (cfg : Config) (s : Snapshot) :
    violDelay cfg s = true ↔
      (0 < cfg.maxEventLoopDelay ∧
        JSNum.gt s.eventLoopDelay (.fin cfg.maxEventLoopDelay) = true) := by
  simp [violDelay, checkMaxEventLoopDelay, Bool.and_eq_true,
    decide_eq_true_iff]

lemma violDelay_disabled (cfg : Config) (s : Snapshot)
    (h : cfg.maxEventLoopDelay ≤ 0) : violDelay cfg s = false := by
  simp [violDelay, checkMaxEventLoopDelay, not_lt.mpr h]

lemma violDelay_at_threshold (cfg : Config) (s : Snapshot)
    (h : s.eventLoopDelay = JSNum.fin cfg.maxEventLoopDelay) :
    violDelay cfg s = false := by
  simp [violDelay, h, JSNum.gt]

lemma violHeap_iff (cfg : Config) (s : Snapshot) :
    violHeap cfg s = true ↔
      (0 < cfg.maxHeapUsedBytes ∧ cfg.maxHeapUsedBytes < s.heapUsed) := by
  simp [violHeap, checkMaxHeapUsedBytes, Bool.and_eq_true,
    decide_eq_true_iff]

lemma violHeap_disabled (cfg : Config) (s : Snapshot)
    (h : cfg.maxHeapUsedBytes ≤ 0) : violHeap cfg s = false := by
  simp [violHeap, checkMaxHeapUsedBytes, not_lt.mpr h]

lemma violHeap_at_threshold (cfg : Config) (s : Snapshot)
    (h : s.heapUsed = cfg.maxHeapUsedBytes) : violHeap cfg s = false := by
  simp [violHeap, h]

lemma violRss_iff (cfg : Config) (s : Snapshot) :
    violRss cfg s = true ↔
      (0 < cfg.maxRssBytes ∧ cfg.maxRssBytes < s.rssBytes) := by
  simp [violRss, checkMaxRssBytes, Bool.and_eq_true, decide_eq_true_iff]

lemma violRss_disabled (cfg : Config) (s : Snapshot)
    (h : cfg.maxRssBytes ≤ 0) : violRss cfg s = false := by
  simp [violRss, checkMaxRssBytes, not_lt.mpr h]

lemma violRss_at_threshold (cfg : Config) (s : Snapshot)
    (h : s.rssBytes = cfg.maxRssBytes) : violRss cfg s = false := by
  simp [violRss, h]

lemma violUtil_iff (cap : Caps) (cfg : Config) (s : Snapshot)
    (hcons : cap.elu = false → s.eventLoopUtilized = 0) :
    violUtil cap cfg s = true ↔
      (0 < cfg.maxEventLoopUtilization ∧
        cfg.maxEventLoopUtilization < s.eventLoopUtilized) := by
  cases he : cap.elu
  · simp [violUtil, checkMaxEventLoopUtilization, he, hcons he]
    intro h1
    linarith
  · simp [violUtil, checkMaxEventLoopUtilization, he, Bool.and_eq_true,
      decide_eq_true_iff]

lemma violUtil_disabled (cap : Caps) (cfg : Config) (s : Snapshot)
    (h : cfg.maxEventLoopUtilization ≤ 0) : violUtil cap cfg s = false := by
  cases he : cap.elu <;>
    simp [violUtil, checkMaxEventLoopUtilization, he, not_lt.mpr h]

lemma violUtil_at_threshold (cap : Caps) (cfg : Config) (s : Snapshot)
    (h : s.eventLoopUtilized = cfg.maxEventLoopUtilization) :
    violUtil cap cfg s = false := by
  simp [violUtil, h]

lemma isUnderPressure_eq_or (cfg : Config) (cap : Caps) (s : Snapshot) :
    isUnderPressure cfg cap s =
      (violDelay cfg s || violHeap cfg s || violRss cfg s ||
        !s.externalsHealthy || violUtil cap cfg s) := by
  unfold isUnderPressure
  split_ifs <;> simp_all

/-- Claim C1: for each signal, the pressure evaluation flags a
violation exactly when the configured ceiling is strictly positive and
the observed value is strictly greater than the ceiling; a ceiling
`t ≤ 0` disables the check regardless of the observed value, and an
observed value equal to the ceiling never triggers.  The hypothesis
records what `updateEventLoopUtilization` guarantees: without the
utilization capability the observed utilization is pinned to `0`.
`isUnderPressure` is exactly the disjunction of the per-signal flags
(plus the external-health flag). -/
theorem threshold_gating (cfg : Config) (cap : Caps) (s : Snapshot)
    (hcons : cap.elu = false → s.eventLoopUtilized = 0) :
    (violDelay cfg s = true ↔
      (0 < cfg.maxEventLoopDelay ∧
        JSNum.gt s.eventLoopDelay (.fin cfg.maxEventLoopDelay) = true)) ∧
    (cfg.maxEventLoopDelay ≤ 0 → violDelay cfg s = false) ∧
    (s.eventLoopDelay = JSNum.fin cfg.maxEventLoopDelay →
      violDelay cfg s = false) ∧
    (violHeap cfg s = true ↔
      (0 < cfg.maxHeapUsedBytes ∧ cfg.maxHeapUsedBytes < s.heapUsed)) ∧
    (cfg.maxHeapUsedBytes ≤ 0 → violHeap cfg s = false) ∧
    (s.heapUsed = cfg.maxHeapUsedBytes → violHeap cfg s = false) ∧
    (violRss cfg s = true ↔
      (0 < cfg.maxRssBytes ∧ cfg.maxRssBytes < s.rssBytes)) ∧
    (cfg.maxRssBytes ≤ 0 → violRss cfg s = false) ∧
    (s.rssBytes = cfg.maxRssBytes → violRss cfg s = false) ∧
    (violUtil cap cfg s = true ↔
      (0 < cfg.maxEventLoopUtilization ∧
        cfg.maxEventLoopUtilization < s.eventLoopUtilized)) ∧
    (cfg.maxEventLoopUtilization ≤ 0 → violUtil cap cfg s = false) ∧
    (s.eventLoopUtilized = cfg.maxEventLoopUtilization →
      violUtil cap cfg s = false) ∧
    isUnderPressure cfg cap s =
      (violDelay cfg s || violHeap cfg s || violRss cfg s ||
        !s.externalsHealthy || violUtil cap cfg s) :=
  ⟨violDelay_iff cfg s, violDelay_disabled cfg s,
    violDelay_at_threshold cfg s, violHeap_iff cfg s,
    violHeap_disabled cfg s, violHeap_at_threshold cfg s,
    violRss_iff cfg s, violRss_disabled cfg s, violRss_at_threshold cfg s,
    violUtil_iff cap cfg s hcons, violUtil_disabled cap cfg s,
    violUtil_at_threshold cap cfg s, isUnderPressure_eq_or cfg cap s⟩

/-- Witness for C1: with a disabled heap ceiling (`0`) a huge heap
reading is not flagged, and an observed delay exactly equal to the
configured ceiling is not flagged. -/
theorem threshold_gating_witness :
    violHeap cfgW1 snapW1 = false ∧ violDelay cfgW1 snapW1 = false := by
  have h := threshold_gating cfgW1 ⟨true, true⟩ snapW1 (fun _ => rfl)
  exact ⟨h.2.2.2.2.1 le_rfl, h.2.2.1 rfl⟩

/-- Claim C5: the histogram-based delay estimate is
`Math.max(0, mean / 1e6 - resolution)`; when that computation yields
NaN the stored delay becomes positive infinity (never NaN), so with any
positive `maxEventLoopDelay` ceiling the delay check is violated on the
next evaluation, whereas a propagated NaN would make every strict
greater-than comparison false. -/
theorem delay_nan_clamped_to_infinity (mean : JSNum) (t : ℚ) :
    (mean.isNaN = false →
      updateEventLoopDelay mean =
        JSNum.max0 ((mean.divq 1000000).subq resolution)) ∧
    (mean.isNaN = true → updateEventLoopDelay mean = .inf) ∧
    (updateEventLoopDelay mean).isNaN = false ∧
    (mean.isNaN = true → 0 < t →
      violDelay { maxEventLoopDelay := t }
        { eventLoopDelay := updateEventLoopDelay mean } = true) ∧
    JSNum.gt .nan (.fin t) = false := by
  refine ⟨?_, ?_, ?_, ?_, rfl⟩
  · intro h
    cases mean <;>
      simp_all [updateEventLoopDelay, JSNum.divq, JSNum.subq, JSNum.max0,
        JSNum.isNaN]
  · intro h
    cases mean <;>
      simp_all [updateEventLoopDelay, JSNum.divq, JSNum.subq, JSNum.max0,
        JSNum.isNaN]
  · cases mean <;>
      simp [updateEventLoopDelay, JSNum.divq, JSNum.subq, JSNum.max0,
        JSNum.isNaN]
  · intro h ht
    have h2 : updateEventLoopDelay mean = .inf := by
      cases mean <;>
        simp_all [updateEventLoopDelay, JSNum.divq, JSNum.subq, JSNum.max0,
          JSNum.isNaN]
    simp [violDelay, checkMaxEventLoopDelay, h2, JSNum.gt, ht]

/-- Witness for C5: a NaN histogram mean is stored as infinity and a
ceiling of 1 ms is then violated. -/
theorem delay_nan_clamped_to_infinity_witness :
    updateEventLoopDelay .nan = .inf ∧
    violDelay { maxEventLoopDelay := 1 }
      { eventLoopDelay := updateEventLoopDelay .nan } = true := by
  have h := delay_nan_clamped_to_infinity .nan 1
  exact ⟨h.2.1 rfl, h.2.2.2.1 rfl (by norm_num)⟩

/-- Claim C6: the pressure handler's outcome is interpreted as a
three-way tagged result: a null/undefined return or a promise that
resolves continues the pipeline; a non-null returned value becomes the
response body; a synchronous throw or a promise rejection propagates
the error to the framework; with no handler configured the default is
status 503 with a `Retry-After` header of the configured seconds,
which default to 10. -/
theorem pressure_handler_outcomes (β ε : Type) (rA : ℚ) (e err : ε)
    (b : β) :
    handlePressure (some (.retNull : HandlerBehavior β ε)) rA e =
      .proceed ∧
    handlePressure (some (.promiseResolved : HandlerBehavior β ε)) rA e =
      .proceed ∧
    handlePressure (some (.retValue b : HandlerBehavior β ε)) rA e =
      .respondBody b ∧
    handlePressure (some (.throws err : HandlerBehavior β ε)) rA e =
      .errorPropagated err ∧
    handlePressure (some (.promiseRejected err : HandlerBehavior β ε))
        rA e = .errorPropagated err ∧
    handlePressure (none : Option (HandlerBehavior β ε)) rA e =
      .failDefault SERVICE_UNAVAILABLE rA e ∧
    SERVICE_UNAVAILABLE = 503 ∧
    effectiveRetryAfter none = 10 :=
  ⟨rfl, rfl, rfl, rfl, rfl, rfl, rfl, rfl⟩

lemma gateStep_fst_head (ht : PressureType → Bool)
    (acc : List PressureType × Bool) (cond : Bool) (t x : PressureType)
    (h : acc.1.head? = some x) :
    (gateStep ht acc cond t).1.head? = some x := by
  unfold gateStep
  split
  · exact h
  · split
    · cases hl : acc.1 with
      | nil => rw [hl] at h; simp at h
      | cons a as =>
          rw [hl] at h
          simp at h
          simp [hl, h]
    · exact h

/-- Counterexample to claim C3 as stated: in the gating middleware of
`core.ts` there is no early return, so with a snapshot violating both
the delay and the heap ceiling and a pressure handler that returns
without throwing, the handler is invoked twice — with
`EVENT_LOOP_DELAY` and then with `HEAP_USED_BYTES` — rather than
exactly one verdict being produced. -/
theorem gate_two_verdicts_counterexample :
    violDelay cfgC3 snapC3 = true ∧ violHeap cfgC3 snapC3 = true ∧
    (coreGateInvocations cfgC3 capC3 snapC3 (fun _ => false)).1 =
      [PressureType.eventLoopDelay, PressureType.heapUsedBytes] ∧
    (coreGateInvocations cfgC3 capC3 snapC3 (fun _ => false)).1 ≠
      [PressureType.eventLoopDelay] := by
  decide

/-- Claim C3 (amended): the admission check evaluates the signals in
the fixed order delay, heap, rss, external health, utilization.  In the
`onRequest` revision (early returns) the first violated signal wins and
is the only verdict; in the `core.ts` middleware the FIRST handler
invocation is likewise always the first violated signal — given
simultaneous delay and heap violations it is `EVENT_LOOP_DELAY` — but a
handler that returns without throwing is invoked again for later
violated signals. -/
theorem gate_first_violation_priority (cfg : Config) (cap : Caps)
    (s : Snapshot) (ht : PressureType → Bool)
    (hd : violDelay cfg s = true) (_hh : violHeap cfg s = true) :
    onRequestVerdict cfg cap s = some .eventLoopDelay ∧
    (coreGateInvocations cfg cap s ht).1.head? =
      some PressureType.eventLoopDelay := by
  constructor
  · simp [onRequestVerdict, hd]
  · unfold coreGateInvocations
    apply gateStep_fst_head
    apply gateStep_fst_head
    apply gateStep_fst_head
    apply gateStep_fst_head
    simp [gateStep, hd]

/-- Witness for the amended C3 at the concrete double violation. -/
theorem gate_first_violation_priority_witness :
    onRequestVerdict cfgC3 capC3 snapC3 =
      some PressureType.eventLoopDelay ∧
    (coreGateInvocations cfgC3 capC3 snapC3 (fun _ => false)).1.head? =
      some PressureType.eventLoopDelay :=
  gate_first_violation_priority cfgC3 capC3 snapC3 (fun _ => false)
    (by decide) (by decide)

/-- Claim C8: with a truthy `healthCheck` configured, setup runs two
assertions before any request is served: the probe must be callable,
and `healthCheckInterval > 0` or a status route must be exposed;
otherwise construction fails with a configuration error.  Setup
succeeds with no probe, or with a callable probe plus a positive
interval or an exposed status route. -/
theorem setup_validation_fails_fast (i : ℚ) (r : Option String) :
    setupValidation .absent i r = .ok () ∧
    setupValidation .nonCallable i r =
      .error "config.healthCheck should be a function that returns a promise that resolves to true or false" ∧
    (i ≤ 0 → r = none → setupValidation .callableFn i r =
      .error "config.healthCheck requires config.healthCheckInterval or config.exposeStatusRoute") ∧
    (0 < i → setupValidation .callableFn i r = .ok ()) ∧
    (r.isSome = true → setupValidation .callableFn i r = .ok ()) := by
  refine ⟨rfl, rfl, ?_, ?_, ?_⟩
  · intro hi hr
    subst hr
    simp [setupValidation, not_lt.mpr hi]
  · intro hi
    simp [setupValidation, hi]
  · intro hr
    simp [setupValidation, hr]

/-- Witness for C8: a non-callable probe and a callable probe with
neither interval nor status route both fail at setup; a positive
interval passes. -/
theorem setup_validation_fails_fast_witness :
    setupValidation .nonCallable 5 none =
      .error "config.healthCheck should be a function that returns a promise that resolves to true or false" ∧
    setupValidation .callableFn 0 none =
      .error "config.healthCheck requires config.healthCheckInterval or config.exposeStatusRoute" ∧
    setupValidation .callableFn 5 none = .ok () := by
  have h1 := setup_validation_fails_fast 5 (none : Option String)
  have h2 := setup_validation_fails_fast 0 (none : Option String)
  exact ⟨h1.2.1, h2.2.2.1 le_rfl rfl, h1.2.2.2.1 (by norm_num)⟩

/-- Claim C9: the status route ignores the cached periodic health state
and answers from a fresh on-demand probe call: 200 with
`{"status":"ok", ...probeResult}` when the probe result is truthy or no
probe is configured, and 503 with the configured `Retry-After` seconds
and the configured error when the probe result is falsy or the probe
rejects; the default route path is `/status`. -/
theorem status_route_behaviour (ε : Type) (cached other : Bool)
    (probe : Option (Except Unit CheckResultV)) (rA : ℚ) (e : ε)
    (fields : List (String × String)) :
    statusRouteHandler cached probe rA e =
      statusRouteHandler other probe rA e ∧
    statusRouteHandler cached none rA e =
      (.okJson [("status", "ok")] : StatusResponse ε) ∧
    statusRouteHandler cached (some (.ok ⟨true, fields⟩)) rA e =
      .okJson (("status", "ok") :: fields) ∧
    statusRouteHandler cached (some (.ok ⟨false, fields⟩)) rA e =
      .unavailable 503 rA e ∧
    statusRouteHandler cached (some (.error ())) rA e =
      .unavailable 503 rA e ∧
    mapExposeStatusRoute (some (Sum.inl true)) = some "/status" :=
  ⟨rfl, rfl, rfl, rfl, rfl, rfl⟩

/-- Claim C10: the effective sample interval: a configured `0` (falsy)
or an absent value falls back to the capability-dependent default
(1000 ms with histogram support, 5 ms without), and with histogram
support the result is clamped from below by the 10 ms resolution, so
every configured value strictly between 0 and 10 yields 10. -/
theorem sample_interval_derivation (v : ℚ) :
    getSampleInterval none 10 true = 1000 ∧
    getSampleInterval none 10 false = 5 ∧
    getSampleInterval (some 0) 10 true = 1000 ∧
    getSampleInterval (some 0) 10 false = 5 ∧
    getSampleInterval (some v) 10 true =
      max 10 (if v = 0 then 1000 else v) ∧
    (0 < v → v < 10 → getSampleInterval (some v) 10 true = 10) := by
  refine ⟨by norm_num [getSampleInterval], rfl,
    by norm_num [getSampleInterval], rfl, rfl, ?_⟩
  intro h1 h2
  have hne : v ≠ 0 := ne_of_gt h1
  simp [getSampleInterval, hne]
  exact le_of_lt h2

/-- Witness for C10: a configured 3 ms interval is clamped to 10 ms. -/
theorem sample_interval_derivation_witness :
    getSampleInterval (some 3) 10 true = 10 :=
  (sample_interval_derivation 3).2.2.2.2.2 (by norm_num) (by norm_num)

end HUP
